import Mathlib

/-!
Shallow embedding of the PROTEUS land-cover mask generator
(`bin/dswx_landcover_mask_dswe.py`) and proofs about its specification.

The core under verification is `create_landcover_mask`: input-existence
checks, the threshold table `get_thresholds`, the evergreen auxiliary
filter, the hierarchical classifier `assign_hierarchy` built from
`write_array`, the GeoTIFF writer `array_to_geotiff`, and the
batch/single-profile dispatch.

External raster-store primitives (`gdal.Open` succeeding with metadata,
`gdal.Warp` reprojection, the sum-resampling aggregation) are out of the
embedding's scope, as in the specification: the aggregate count layers and
the companion Copernicus 30 m layer enter the model as inputs supplied by
an abstract environment, and the scratch-directory intermediates written
by the warps are not modelled.  Machine integers: the aggregate counts are
`uint16` counts of fine pixels (at most 9 per coarse cell, far below
2^16), and every value written into the classification array is one of the
literal codes 30000, 42, 2019, 20191, 25000; no arithmetic in the
modelled code can overflow, so cell values are modelled as `Nat`.
-/

namespace Proteus

/-- A 2-D numpy array as the script uses it: a shape `(rows, cols)`
(`shape[0]`, `shape[1]`) together with its row-major flattened data
(`reshape(-1)`). -/
structure Array2D where
  rows : Nat
  cols : Nat
  data : List Nat
  deriving Repr, DecidableEq

/-- The GDAL raster cell types the writer could declare; the source passes
`eType = gdal.GDT_UInt16`. -/
inductive GDALDataType where
  | GDT_Byte
  | GDT_UInt16
  | GDT_Int16
  | GDT_Float32
  deriving Repr, DecidableEq

/-- One written GeoTIFF, recording what `array_to_geotiff` passes to
`driver.Create`, `WriteArray` and `SetNoDataValue`. -/
structure GeoTiffFile where
  path : String
  xsize : Nat
  ysize : Nat
  bands : Nat
  eType : GDALDataType
  cells : List Nat
  nodata : Int
  deriving Repr, DecidableEq

/-- Python's `str.lower()` on the mask-type / flavor names the script
compares (all ASCII): lowercase every character. -/
def pyLower (s : String) : String := ⟨s.data.map Char.toLower⟩

/-- `get_thresholds` of the source: lowercase the flavor name and look it
up in `threshold_dictionary`; a name that is neither key raises `KeyError`
in Python, modelled as `none`. -/
def get_thresholds (mask_flavor : String) : Option (List Nat) :=
  let key := pyLower mask_flavor
  if key = "standard" then some [6, 3, 7, 3]
  else if key = "water heavy" then some [6, 3, 7, 1]
  else none

/-- The auxiliary filter of `assign_hierarchy`, line
`tree_aggregate_sum = np.where((Copernicus_arrray_30m == 111),
tree_aggregate_sum, 0)`: keep the tree count where the companion
Copernicus 30 m cell equals 111, else 0. -/
def filter_tree_by_evergreen (copernicus tree : List Nat) : List Nat :=
  List.zipWith (fun c t => if c = 111 then t else 0) copernicus tree

/-- `write_array` of the source: walk the flattened aggregate layer and,
wherever the count strictly exceeds the threshold, overwrite that position
of the conglomerate array with the classification value. -/
def write_array (conglomerate_array agg_sum : List Nat) (threshold : Nat)
    (classification_val : Nat) : List Nat :=
  List.zipWith
    (fun c value => if value > threshold then classification_val else c)
    conglomerate_array agg_sum

/-- `assign_hierarchy` of the source: filter the tree counts by the
Copernicus evergreen class, initialise the conglomerate array to 30000
everywhere (`np.full`), then apply the four rules in order — tree (42),
urban majority (2019), urban dense (20191), water (25000) — with the
thresholds of the flavor, and reshape back to the water layer's shape.
`none` models the `KeyError` of an unknown flavor. -/
def assign_hierarchy (mask_flavor : String)
    (h20_aggregate_sum urban_aggregate_sum tree_aggregate_sum
      copernicus_30m : Array2D) : Option Array2D :=
  match get_thresholds mask_flavor with
  | none => none
  | some threshold_list =>
    let tree_filtered :=
      filter_tree_by_evergreen copernicus_30m.data tree_aggregate_sum.data
    let hierarchy0 := List.replicate h20_aggregate_sum.data.length 30000
    let hierarchy1 := write_array hierarchy0 tree_filtered
      (threshold_list.getD 0 0) 42
    let hierarchy2 := write_array hierarchy1 urban_aggregate_sum.data
      (threshold_list.getD 1 0) 2019
    let hierarchy3 := write_array hierarchy2 urban_aggregate_sum.data
      (threshold_list.getD 2 0) 20191
    let hierarchy4 := write_array hierarchy3 h20_aggregate_sum.data
      (threshold_list.getD 3 0) 25000
    some ⟨h20_aggregate_sum.rows, h20_aggregate_sum.cols, hierarchy4⟩

/-- `array_to_geotiff` of the source: create the output dataset with
`xsize = input_array.shape[0]`, `ysize = input_array.shape[1]`, one band
of type `gdal.GDT_UInt16`, write the array and set the nodata value to
-9999. -/
def array_to_geotiff (input_array : Array2D) (outpath : String) :
    GeoTiffFile :=
  { path := outpath
    xsize := input_array.rows
    ysize := input_array.cols
    bands := 1
    eType := GDALDataType.GDT_UInt16
    cells := input_array.data
    nodata := -9999 }

/-- The aggregate layers the warp/aggregation primitives hand to the
classifier for a given set of inputs, together with the filesystem
predicates the script consults: `os.path.isfile` and whether `gdal.Open`
returns a dataset (rather than `None`). -/
structure Env where
  isfile : String → Bool
  openable : String → Bool
  h20_aggregate_sum : Array2D
  urban_aggregate_sum : Array2D
  tree_aggregate_sum : Array2D
  copernicus_30m : Array2D

/-- `create_LCMASK` of the source: classify with the flavor's thresholds
and write the result to `dest_path` (the same path whichever flavor runs:
the per-flavor filename line is commented out in the source).  `none`
models the `KeyError` escaping from `get_thresholds`. -/
def create_LCMASK (env : Env) (mask_flavor dest_path : String) :
    Option GeoTiffFile :=
  (assign_hierarchy mask_flavor env.h20_aggregate_sum
      env.urban_aggregate_sum env.tree_aggregate_sum
      env.copernicus_30m).map
    (fun reclassified_array => array_to_geotiff reclassified_array dest_path)

/-- How a run of `create_landcover_mask` ends: the plain `return`
statements of the missing-input checks, normal completion, or an
uncaught Python exception terminating the process. -/
inductive Outcome where
  | returnedEarly
  | completed
  /-- `gdal.Open` returned `None`; after `logger.error` the very next
  statement `layer_gdal_dataset.GetGeoTransform()` raises
  `AttributeError` on `None`, killing the run. -/
  | raisedAttributeError
  /-- `KeyError` from `threshold_dictionary[key]` on an unknown flavor. -/
  | raisedKeyError (key : String)
  deriving Repr, DecidableEq

/-- What a run of `create_landcover_mask` did: the error messages passed
to `logger.error`, the output GeoTIFFs written in order, and how the run
ended. -/
structure RunResult where
  errors : List String
  writes : List GeoTiffFile
  outcome : Outcome
  deriving Repr, DecidableEq

/-- `create_landcover_mask` of the source: check that the three input
files exist (logging and returning on the first missing one), open the
reference HLS input (logging on failure, after which the very next
statement raises `AttributeError`), then dispatch on the mask type:
`"batch"` (case-insensitively) runs `create_LCMASK` for `'standard'` then
`'water heavy'`, any other mask type runs `create_LCMASK` once with it. -/
def create_landcover_mask (env : Env)
    (DSWE_input Copernicus_input ESA_input dest_path mask_type : String) :
    RunResult :=
  if env.isfile DSWE_input = false then
    ⟨["ERROR file not found: " ++ DSWE_input], [], Outcome.returnedEarly⟩
  else if env.isfile Copernicus_input = false then
    ⟨["ERROR file not found: " ++ Copernicus_input], [], Outcome.returnedEarly⟩
  else if env.isfile ESA_input = false then
    ⟨["ERROR file not found: " ++ ESA_input], [], Outcome.returnedEarly⟩
  else if env.openable DSWE_input = false then
    ⟨["ERROR invalid file: " ++ DSWE_input], [], Outcome.raisedAttributeError⟩
  else if pyLower mask_type = "batch" then
    match create_LCMASK env "standard" dest_path,
        create_LCMASK env "water heavy" dest_path with
    | some f1, some f2 => ⟨[], [f1, f2], Outcome.completed⟩
    | none, _ => ⟨[], [], Outcome.raisedKeyError "standard"⟩
    | some f1, none => ⟨[], [f1], Outcome.raisedKeyError "water heavy"⟩
  else
    match create_LCMASK env mask_type dest_path with
    | some f => ⟨[], [f], Outcome.completed⟩
    | none => ⟨[], [], Outcome.raisedKeyError (pyLower mask_type)⟩

/-- The file a reader finds at path `p` once the run is over: the last
write to `p`, later writes overwriting earlier ones. -/
def final_file (writes : List GeoTiffFile) (p : String) :
    Option GeoTiffFile :=
  (writes.filter (fun f => f.path = p)).getLast?

/-- A concrete 1×1 environment: every file present and openable, water
aggregate count 2 (between the water-heavy threshold 1 and the standard
threshold 3), all other counts 0. -/
def batch_demo_env : Env :=
  ⟨fun _ => true, fun _ => true, ⟨1, 1, [2]⟩, ⟨1, 1, [0]⟩, ⟨1, 1, [0]⟩,
    ⟨1, 1, [0]⟩⟩

/-! Helper lemmas about the list operations the embedding is built from. -/

theorem getD_zipWith (f : Nat → Nat → Nat) :
    ∀ (as bs : List Nat) (i : Nat), i < as.length → i < bs.length →
      (List.zipWith f as bs).getD i 0 = f (as.getD i 0) (bs.getD i 0) := by
  intro as
  induction as with
  | nil => intro bs i h1 _; exact absurd h1 (by simp)
  | cons a as ih =>
    intro bs i h1 h2
    cases bs with
    | nil => exact absurd h2 (by simp)
    | cons b bs =>
      cases i with
      | zero => rfl
      | succ n =>
        simpa using ih bs n (by simpa using h1) (by simpa using h2)

theorem getD_replicate (a : Nat) :
    ∀ (n i : Nat), i < n → (List.replicate n a).getD i 0 = a := by
  intro n
  induction n with
  | zero => intro i h; exact absurd h (by simp)
  | succ m ih =>
    intro i h
    cases i with
    | zero => rfl
    | succ k => exact ih k (by omega)

theorem mem_zipWith (f : Nat → Nat → Nat) :
    ∀ (as bs : List Nat) (x : Nat), x ∈ List.zipWith f as bs →
      ∃ a b, a ∈ as ∧ b ∈ bs ∧ x = f a b := by
  intro as
  induction as with
  | nil => intro bs x hx; simp at hx
  | cons a as ih =>
    intro bs x hx
    cases bs with
    | nil => simp at hx
    | cons b bs =>
      rcases (by simpa using hx : x = f a b ∨ x ∈ List.zipWith f as bs)
          with h | h
      · exact ⟨a, b, by simp, by simp, h⟩
      · obtain ⟨a0, b0, ha, hb, he⟩ := ih bs x h
        exact ⟨a0, b0, by simp [ha], by simp [hb], he⟩

theorem write_array_length (c agg : List Nat) (t v : Nat) :
    (write_array c agg t v).length = min c.length agg.length :=
  List.length_zipWith ..

theorem write_array_getD (c agg : List Nat) (t v i : Nat)
    (h1 : i < c.length) (h2 : i < agg.length) :
    (write_array c agg t v).getD i 0 =
      if agg.getD i 0 > t then v else c.getD i 0 :=
  getD_zipWith _ c agg i h1 h2

theorem mem_write_array (c agg : List Nat) (t v x : Nat)
    (hx : x ∈ write_array c agg t v) : x = v ∨ x ∈ c := by
  obtain ⟨a, b, ha, _, he⟩ := mem_zipWith _ c agg x hx
  by_cases hb : b > t
  · exact Or.inl (by simp [he, hb])
  · exact Or.inr (by simpa [he, hb] using ha)

theorem filter_tree_length (cop tree : List Nat) :
    (filter_tree_by_evergreen cop tree).length = min cop.length tree.length :=
  List.length_zipWith ..

theorem filter_tree_getD (cop tree : List Nat) (i : Nat)
    (h1 : i < cop.length) (h2 : i < tree.length) :
    (filter_tree_by_evergreen cop tree).getD i 0 =
      if cop.getD i 0 = 111 then tree.getD i 0 else 0 :=
  getD_zipWith _ cop tree i h1 h2

/-- Unfolding of `assign_hierarchy` once the flavor's thresholds resolve:
the four `write_array` rules in source order, applied to the
evergreen-filtered tree layer, the urban layer twice, and the water
layer. -/
theorem assign_hierarchy_eq (flavor : String) (t0 t1 t2 t3 : Nat)
    (w u t c : Array2D)
    (hth : get_thresholds flavor = some [t0, t1, t2, t3]) :
    assign_hierarchy flavor w u t c =
      some ⟨w.rows, w.cols,
        write_array
          (write_array
            (write_array
              (write_array (List.replicate w.data.length 30000)
                (filter_tree_by_evergreen c.data t.data) t0 42)
              u.data t1 2019)
            u.data t2 20191)
          w.data t3 25000⟩ := by
  rw [assign_hierarchy, hth]
  rfl

/-- Per-cell value of the four-rule `write_array` chain over abstract
layers: the last rule in source order whose threshold is strictly
exceeded wins, and a cell firing no rule keeps its initial value. -/
theorem write_chain_getD (L0 tf ud wd : List Nat) (t0 t1 t2 t3 i : Nat)
    (h0 : i < L0.length) (hf : i < tf.length) (hu : i < ud.length)
    (hw : i < wd.length) :
    (write_array (write_array (write_array (write_array L0 tf t0 42)
      ud t1 2019) ud t2 20191) wd t3 25000).getD i 0 =
    if wd.getD i 0 > t3 then 25000
    else if ud.getD i 0 > t2 then 20191
    else if ud.getD i 0 > t1 then 2019
    else if tf.getD i 0 > t0 then 42
    else L0.getD i 0 := by
  have l1 : i < (write_array L0 tf t0 42).length := by
    simp only [write_array_length]; omega
  have l2 : i < (write_array (write_array L0 tf t0 42) ud t1 2019).length := by
    simp only [write_array_length]; omega
  have l3 : i < (write_array (write_array (write_array L0 tf t0 42)
      ud t1 2019) ud t2 20191).length := by
    simp only [write_array_length]; omega
  rw [write_array_getD _ _ _ _ _ l3 hw, write_array_getD _ _ _ _ _ l2 hu,
    write_array_getD _ _ _ _ _ l1 hu, write_array_getD _ _ _ _ _ h0 hf]

/-- Per-cell value of the classifier: the last rule in source order whose
threshold is strictly exceeded wins, and a cell firing no rule keeps the
initialisation value 30000. -/
theorem assign_hierarchy_cell (flavor : String) (t0 t1 t2 t3 : Nat)
    (w u t c res : Array2D) (i : Nat)
    (hth : get_thresholds flavor = some [t0, t1, t2, t3])
    (hres : assign_hierarchy flavor w u t c = some res)
    (hu : u.data.length = w.data.length)
    (ht : t.data.length = w.data.length)
    (hc : c.data.length = w.data.length)
    (hi : i < w.data.length) :
    res.data.getD i 0 =
      if w.data.getD i 0 > t3 then 25000
      else if u.data.getD i 0 > t2 then 20191
      else if u.data.getD i 0 > t1 then 2019
      else if (filter_tree_by_evergreen c.data t.data).getD i 0 > t0 then 42
      else 30000 := by
  have hres2 := Option.some.inj
    ((assign_hierarchy_eq flavor t0 t1 t2 t3 w u t c hth).symm.trans hres)
  have hdata : res.data = write_array (write_array (write_array
      (write_array (List.replicate w.data.length 30000)
        (filter_tree_by_evergreen c.data t.data) t0 42)
      u.data t1 2019) u.data t2 20191) w.data t3 25000 :=
    (congrArg Array2D.data hres2).symm
  have hlen0 : i < (List.replicate w.data.length (30000 : Nat)).length := by
    rw [List.length_replicate]; exact hi
  have hlenf : i < (filter_tree_by_evergreen c.data t.data).length := by
    rw [filter_tree_length]; omega
  have hlenu : i < u.data.length := by omega
  rw [hdata, write_chain_getD _ _ _ _ _ _ _ _ _ hlen0 hlenf hlenu hi,
    getD_replicate _ _ _ hi]

/-- The threshold table has exactly two rows, so a successful lookup
yields one of the two literal threshold lists. -/
theorem get_thresholds_cases (flavor : String) (ts : List Nat)
    (h : get_thresholds flavor = some ts) :
    ts = [6, 3, 7, 3] ∨ ts = [6, 3, 7, 1] := by
  by_cases h1 : pyLower flavor = "standard"
  · left
    have hv : get_thresholds flavor = some [6, 3, 7, 3] := by
      simp [get_thresholds, h1]
    rw [hv] at h
    exact (Option.some.inj h).symm
  · by_cases h2 : pyLower flavor = "water heavy"
    · right
      have hv : get_thresholds flavor = some [6, 3, 7, 1] := by
        simp [get_thresholds, h1, h2]
      rw [hv] at h
      exact (Option.some.inj h).symm
    · have hv : get_thresholds flavor = none := by
        simp [get_thresholds, h1, h2]
      rw [hv] at h
      cases h

/-- Every value of the four-rule chain is a rule code or comes from the
initial array. -/
theorem mem_write_chain (L0 tf ud wd : List Nat) (t0 t1 t2 t3 x : Nat)
    (hx : x ∈ write_array (write_array (write_array (write_array L0 tf t0 42)
      ud t1 2019) ud t2 20191) wd t3 25000) :
    x ∈ L0 ∨ x = 42 ∨ x = 2019 ∨ x = 20191 ∨ x = 25000 := by
  rcases mem_write_array _ _ _ _ _ hx with h | hx
  · exact Or.inr (Or.inr (Or.inr (Or.inr h)))
  rcases mem_write_array _ _ _ _ _ hx with h | hx
  · exact Or.inr (Or.inr (Or.inr (Or.inl h)))
  rcases mem_write_array _ _ _ _ _ hx with h | hx
  · exact Or.inr (Or.inr (Or.inl h))
  rcases mem_write_array _ _ _ _ _ hx with h | hx
  · exact Or.inr (Or.inl h)
  · exact Or.inl hx

/-! The claims. -/

/-- Claim C1: the four classification rules run in the fixed source order
tree (42), urban majority (2019), urban dense (20191), water (25000), and
a later rule unconditionally overwrites an earlier assignment: each cell
ends with the code of the last rule whose threshold its count strictly
exceeds (first conjunct, the full precedence law).  In particular a cell
whose urban count exceeds both urban thresholds ends with 20191 — the
water rule, being later still, must not fire there, which the precedence
law itself forces — and a cell whose counts exceed both the tree and the
water thresholds ends with 25000 unconditionally, the water rule being
last. -/
theorem rule_order_later_rule_overwrites (flavor : String)
    (t0 t1 t2 t3 : Nat) (w u t c res : Array2D) (i : Nat)
    (hth : get_thresholds flavor = some [t0, t1, t2, t3])
    (hres : assign_hierarchy flavor w u t c = some res)
    (hu : u.data.length = w.data.length)
    (ht : t.data.length = w.data.length)
    (hc : c.data.length = w.data.length)
    (hi : i < w.data.length) :
    (res.data.getD i 0 =
      if w.data.getD i 0 > t3 then 25000
      else if u.data.getD i 0 > t2 then 20191
      else if u.data.getD i 0 > t1 then 2019
      else if (filter_tree_by_evergreen c.data t.data).getD i 0 > t0 then 42
      else 30000)
    ∧ (u.data.getD i 0 > t1 → u.data.getD i 0 > t2 →
        w.data.getD i 0 ≤ t3 → res.data.getD i 0 = 20191)
    ∧ ((filter_tree_by_evergreen c.data t.data).getD i 0 > t0 →
        w.data.getD i 0 > t3 → res.data.getD i 0 = 25000) := by
  have hcell := assign_hierarchy_cell flavor t0 t1 t2 t3 w u t c res i hth
    hres hu ht hc hi
  refine ⟨hcell, ?_, ?_⟩
  · intro _ h2 h3
    rw [hcell, if_neg (by omega), if_pos h2]
  · intro _ h2
    rw [hcell, if_pos h2]

/-- Witness for C1, on a 1×2 grid under the standard profile: cell 0 has
urban count 8 (above both urban thresholds, water quiet) and ends 20191;
cell 1 has evergreen-filtered tree count 9 and water count 9 (both rules
fire) and ends 25000. -/
theorem rule_order_later_rule_overwrites_witness :
    (Array2D.mk 1 2 [20191, 25000]).data.getD 0 0 = 20191
    ∧ (Array2D.mk 1 2 [20191, 25000]).data.getD 1 0 = 25000 := by
  refine ⟨?_, ?_⟩
  · exact (rule_order_later_rule_overwrites "standard" 6 3 7 3
      ⟨1, 2, [0, 9]⟩ ⟨1, 2, [8, 0]⟩ ⟨1, 2, [0, 9]⟩ ⟨1, 2, [0, 111]⟩
      ⟨1, 2, [20191, 25000]⟩ 0 (by decide) (by decide) rfl rfl rfl
      (by decide)).2.1 (by decide) (by decide) (by decide)
  · exact (rule_order_later_rule_overwrites "standard" 6 3 7 3
      ⟨1, 2, [0, 9]⟩ ⟨1, 2, [8, 0]⟩ ⟨1, 2, [0, 9]⟩ ⟨1, 2, [0, 111]⟩
      ⟨1, 2, [20191, 25000]⟩ 1 (by decide) (by decide) rfl rfl rfl
      (by decide)).2.2 (by decide) (by decide)

/-- Claim C2: threshold comparison is strictly greater-than — a cell
whose aggregate count equals the rule's threshold exactly is left
untouched by that rule's `write_array` pass, whatever the rule. -/
theorem threshold_equal_not_classified (conglomerate_array agg_sum : List Nat)
    (threshold classification_val i : Nat)
    (h1 : i < conglomerate_array.length) (h2 : i < agg_sum.length)
    (heq : agg_sum.getD i 0 = threshold) :
    (write_array conglomerate_array agg_sum threshold
        classification_val).getD i 0 = conglomerate_array.getD i 0 := by
  rw [write_array_getD _ _ _ _ _ h1 h2, heq,
    if_neg (lt_irrefl threshold)]

/-- Witness for C2: a count of exactly 6 against the tree threshold 6
leaves the cell at its prior value 30000. -/
theorem threshold_equal_not_classified_witness :
    (write_array [30000] [6] 6 42).getD 0 0 = 30000 :=
  threshold_equal_not_classified [30000] [6] 6 42 0 (by decide) (by decide)
    rfl

/-- Claim C4: the auxiliary filter zeroes the tree count of every cell
whose Copernicus 30 m companion value differs from 111 — regardless of
the original count — and keeps cells with companion value 111 unchanged;
a zeroed cell is never assigned 42 by the tree rule, its count 0
exceeding no threshold; concretely a cell with tree count 9 under
companion value 50 classifies to 30000, not 42. -/
theorem evergreen_filter_zeroes_tree (cop tree conglomerate : List Nat)
    (i t0 : Nat) (h1 : i < cop.length) (h2 : i < tree.length)
    (h3 : i < conglomerate.length) :
    (cop.getD i 0 ≠ 111 →
      (filter_tree_by_evergreen cop tree).getD i 0 = 0)
    ∧ (cop.getD i 0 = 111 →
      (filter_tree_by_evergreen cop tree).getD i 0 = tree.getD i 0)
    ∧ (cop.getD i 0 ≠ 111 →
      (write_array conglomerate (filter_tree_by_evergreen cop tree) t0
          42).getD i 0 = conglomerate.getD i 0)
    ∧ assign_hierarchy "standard" ⟨1, 1, [0]⟩ ⟨1, 1, [0]⟩ ⟨1, 1, [9]⟩
        ⟨1, 1, [50]⟩ = some ⟨1, 1, [30000]⟩ := by
  have hflen : i < (filter_tree_by_evergreen cop tree).length := by
    rw [filter_tree_length]; omega
  have hf := filter_tree_getD cop tree i h1 h2
  refine ⟨fun h => by rw [hf, if_neg h], fun h => by rw [hf, if_pos h],
    fun h => ?_, by decide⟩
  rw [write_array_getD _ _ _ _ _ h3 hflen, hf, if_neg h]
  exact if_neg (by omega)

/-- Witness for C4: companion value 50 against tree count 9 yields
filtered count 0. -/
theorem evergreen_filter_zeroes_tree_witness :
    (filter_tree_by_evergreen [50] [9]).getD 0 0 = 0 :=
  (evergreen_filter_zeroes_tree [50] [9] [30000] 0 6 (by decide)
    (by decide) (by decide)).1 (by decide)

/-- Unfolding of `assign_hierarchy` for a threshold list of any shape,
indexed as the source indexes `threshold_list`. -/
theorem assign_hierarchy_eq_list (flavor : String) (ts : List Nat)
    (w u t c : Array2D) (hth : get_thresholds flavor = some ts) :
    assign_hierarchy flavor w u t c =
      some ⟨w.rows, w.cols,
        write_array
          (write_array
            (write_array
              (write_array (List.replicate w.data.length 30000)
                (filter_tree_by_evergreen c.data t.data) (ts.getD 0 0) 42)
              u.data (ts.getD 1 0) 2019)
            u.data (ts.getD 2 0) 20191)
          w.data (ts.getD 3 0) 25000⟩ := by
  rw [assign_hierarchy, hth]

/-- Claim C5: every cell of the final classification array is one of
30000, 42, 2019, 20191, 25000, for every input and every profile: the
array starts as `np.full(…, 30000)` and each `write_array` pass stores
only its own rule's code. -/
theorem output_codes_closed (flavor : String) (w u t c res : Array2D)
    (hres : assign_hierarchy flavor w u t c = some res) :
    ∀ x ∈ res.data, x ∈ ([30000, 42, 2019, 20191, 25000] : List Nat) := by
  intro x hx
  rcases hopt : get_thresholds flavor with _ | ts
  · rw [assign_hierarchy, hopt] at hres
    exact Option.noConfusion hres
  · have heq := assign_hierarchy_eq_list flavor ts w u t c hopt
    have hdata : res.data = write_array (write_array (write_array
        (write_array (List.replicate w.data.length 30000)
          (filter_tree_by_evergreen c.data t.data) (ts.getD 0 0) 42)
        u.data (ts.getD 1 0) 2019) u.data (ts.getD 2 0) 20191)
        w.data (ts.getD 3 0) 25000 :=
      (congrArg Array2D.data (Option.some.inj (heq.symm.trans hres))).symm
    rcases mem_write_chain _ _ _ _ _ _ _ _ x (hdata ▸ hx) with h | h
    · rw [List.eq_of_mem_replicate h]; simp
    · rcases h with h | h | h | h <;> rw [h] <;> simp

/-- Witness for C5, on the 1×1 water-heavy run with water count 2, whose
output cell is 25000. -/
theorem output_codes_closed_witness :
    (25000 : Nat) ∈ ([30000, 42, 2019, 20191, 25000] : List Nat) :=
  output_codes_closed "water heavy" ⟨1, 1, [2]⟩ ⟨1, 1, [0]⟩ ⟨1, 1, [0]⟩
    ⟨1, 1, [0]⟩ ⟨1, 1, [25000]⟩ (by decide) 25000 (by decide)

/-- Claim C6: profile selection lowercases the name before the table
lookup, so two spellings agreeing up to case select the same thresholds;
"standard" yields (6, 3, 7, 3) and "water heavy" yields (6, 3, 7, 1); and
`assign_hierarchy` applies the selected tuple's four entries in the rule
order tree, urban majority, urban dense, water. -/
theorem profile_selection_case_insensitive (s1 s2 flavor : String)
    (t0 t1 t2 t3 : Nat) (w u t c : Array2D)
    (hcase : pyLower s1 = pyLower s2)
    (hth : get_thresholds flavor = some [t0, t1, t2, t3]) :
    get_thresholds s1 = get_thresholds s2
    ∧ get_thresholds "standard" = some [6, 3, 7, 3]
    ∧ get_thresholds "water heavy" = some [6, 3, 7, 1]
    ∧ assign_hierarchy flavor w u t c = some ⟨w.rows, w.cols,
        write_array
          (write_array
            (write_array
              (write_array (List.replicate w.data.length 30000)
                (filter_tree_by_evergreen c.data t.data) t0 42)
              u.data t1 2019)
            u.data t2 20191)
          w.data t3 25000⟩ := by
  refine ⟨?_, by decide, by decide,
    assign_hierarchy_eq flavor t0 t1 t2 t3 w u t c hth⟩
  rw [get_thresholds, get_thresholds, hcase]

/-- Witness for C6: the all-caps spelling selects the same thresholds as
the capitalised one. -/
theorem profile_selection_case_insensitive_witness :
    get_thresholds "STANDARD" = get_thresholds "Standard" :=
  (profile_selection_case_insensitive "STANDARD" "Standard" "standard"
    6 3 7 3 ⟨1, 1, [0]⟩ ⟨1, 1, [0]⟩ ⟨1, 1, [0]⟩ ⟨1, 1, [0]⟩ (by decide)
    (by decide)).1

/-- Claim C7: when the three inputs exist but the reference HLS product
cannot be opened as a raster, the run logs the invalid-file error and
terminates on the very next statement — `GetGeoTransform()` on the
`None` returned by `gdal.Open` raises `AttributeError` — so no later
pipeline stage runs and no output raster is written. -/
theorem invalid_raster_aborts (env : Env)
    (DSWE_input Copernicus_input ESA_input dest_path mask_type : String)
    (h1 : env.isfile DSWE_input = true)
    (h2 : env.isfile Copernicus_input = true)
    (h3 : env.isfile ESA_input = true)
    (h4 : env.openable DSWE_input = false) :
    create_landcover_mask env DSWE_input Copernicus_input ESA_input
        dest_path mask_type =
      ⟨["ERROR invalid file: " ++ DSWE_input], [],
        Outcome.raisedAttributeError⟩ := by
  rw [create_landcover_mask]
  simp [h1, h2, h3, h4]

/-- Witness for C7: a concrete environment whose files all exist but
none of which opens as a raster. -/
theorem invalid_raster_aborts_witness :
    create_landcover_mask
        ⟨fun _ => true, fun _ => false, ⟨1, 1, [0]⟩, ⟨1, 1, [0]⟩,
          ⟨1, 1, [0]⟩, ⟨1, 1, [0]⟩⟩
        "hls.tif" "cop.tif" "esa.tif" "out.tif" "standard" =
      ⟨["ERROR invalid file: " ++ "hls.tif"], [],
        Outcome.raisedAttributeError⟩ :=
  invalid_raster_aborts _ "hls.tif" "cop.tif" "esa.tif" "out.tif"
    "standard" rfl rfl rfl rfl

/-- Claim C8: when any of the three source rasters is missing, the run
logs `ERROR file not found` with the first missing path, in check order
HLS, Copernicus, ESA, and returns with no output written and no later
pipeline stage executed. -/
theorem missing_input_returns_early (env : Env)
    (DSWE_input Copernicus_input ESA_input dest_path mask_type : String)
    (hmiss : env.isfile DSWE_input = false
      ∨ env.isfile Copernicus_input = false
      ∨ env.isfile ESA_input = false) :
    ∃ p, env.isfile p = false
      ∧ (p = DSWE_input ∨ p = Copernicus_input ∨ p = ESA_input)
      ∧ create_landcover_mask env DSWE_input Copernicus_input ESA_input
          dest_path mask_type =
        ⟨["ERROR file not found: " ++ p], [], Outcome.returnedEarly⟩ := by
  by_cases hd : env.isfile DSWE_input = false
  · exact ⟨DSWE_input, hd, Or.inl rfl, by
      rw [create_landcover_mask]; simp [hd]⟩
  · have hd' : env.isfile DSWE_input = true := by simpa using hd
    by_cases hc : env.isfile Copernicus_input = false
    · exact ⟨Copernicus_input, hc, Or.inr (Or.inl rfl), by
        rw [create_landcover_mask]; simp [hd', hc]⟩
    · have hc' : env.isfile Copernicus_input = true := by simpa using hc
      have he : env.isfile ESA_input = false := by
        rcases hmiss with h | h | h
        · exact absurd h hd
        · exact absurd h hc
        · exact h
      exact ⟨ESA_input, he, Or.inr (Or.inr rfl), by
        rw [create_landcover_mask]; simp [hd', hc', he]⟩

/-- Witness for C8: an environment with no file present reports the
reference input as missing and returns early. -/
theorem missing_input_returns_early_witness :
    ∃ p, (⟨fun _ => false, fun _ => true, ⟨1, 1, [0]⟩, ⟨1, 1, [0]⟩,
        ⟨1, 1, [0]⟩, ⟨1, 1, [0]⟩⟩ : Env).isfile p = false
      ∧ (p = "hls.tif" ∨ p = "cop.tif" ∨ p = "esa.tif")
      ∧ create_landcover_mask
          ⟨fun _ => false, fun _ => true, ⟨1, 1, [0]⟩, ⟨1, 1, [0]⟩,
            ⟨1, 1, [0]⟩, ⟨1, 1, [0]⟩⟩
          "hls.tif" "cop.tif" "esa.tif" "out.tif" "standard" =
        ⟨["ERROR file not found: " ++ p], [], Outcome.returnedEarly⟩ :=
  missing_input_returns_early _ "hls.tif" "cop.tif" "esa.tif" "out.tif"
    "standard" (Or.inl rfl)

/-- Claim C9: the writer produces a single-band raster, declares the cell
type unsigned 16-bit (`GDT_UInt16`), and sets the nodata value to the
fixed sentinel -9999, which differs from every valid class code. -/
theorem writer_single_band_uint16_nodata (input_array : Array2D)
    (outpath : String) :
    (array_to_geotiff input_array outpath).bands = 1
    ∧ (array_to_geotiff input_array outpath).eType =
        GDALDataType.GDT_UInt16
    ∧ (array_to_geotiff input_array outpath).nodata = -9999
    ∧ (array_to_geotiff input_array outpath).nodata ∉
        ([30000, 42, 2019, 20191, 25000] : List Int) := by
  refine ⟨rfl, rfl, rfl, ?_⟩
  show (-9999 : Int) ∉ ([30000, 42, 2019, 20191, 25000] : List Int)
  decide

/-- Claim C10: `driver.Create` receives `xsize = shape[0]` (the row
count) and `ysize = shape[1]` (the column count); since a raster's width
is its column count, the written raster's width and height equal the
array grid's width and height exactly when the grid is square. -/
theorem writer_xsize_is_row_count (input_array : Array2D)
    (outpath : String) :
    (array_to_geotiff input_array outpath).xsize = input_array.rows
    ∧ (array_to_geotiff input_array outpath).ysize = input_array.cols
    ∧ (((array_to_geotiff input_array outpath).xsize = input_array.cols
        ∧ (array_to_geotiff input_array outpath).ysize = input_array.rows)
      ↔ input_array.rows = input_array.cols) :=
  ⟨rfl, rfl, fun h => h.1, fun h => ⟨h, h.symm⟩⟩

/-- Claim C3 (the batch overwrite): under mask type "batch" the run does
perform two writes, and each written raster equals the raster of the
corresponding standalone run — but both `create_LCMASK` calls pass the
same `dest_path` to `array_to_geotiff`, so the second write overwrites
the first and only the water-heavy raster survives.  On the 1×1 input
with water count 2 the surviving file holds 25000 where the standard
run's output holds 30000. -/
theorem batch_overwrite_loses_standard_output :
    (create_landcover_mask batch_demo_env "hls.tif" "cop.tif" "esa.tif"
        "out.tif" "batch").writes =
      [array_to_geotiff ⟨1, 1, [30000]⟩ "out.tif",
        array_to_geotiff ⟨1, 1, [25000]⟩ "out.tif"]
    ∧ (create_landcover_mask batch_demo_env "hls.tif" "cop.tif" "esa.tif"
        "out.tif" "standard").writes =
      [array_to_geotiff ⟨1, 1, [30000]⟩ "out.tif"]
    ∧ (create_landcover_mask batch_demo_env "hls.tif" "cop.tif" "esa.tif"
        "out.tif" "water heavy").writes =
      [array_to_geotiff ⟨1, 1, [25000]⟩ "out.tif"]
    ∧ final_file (create_landcover_mask batch_demo_env "hls.tif" "cop.tif"
        "esa.tif" "out.tif" "batch").writes "out.tif" =
      some (array_to_geotiff ⟨1, 1, [25000]⟩ "out.tif")
    ∧ final_file (create_landcover_mask batch_demo_env "hls.tif" "cop.tif"
        "esa.tif" "out.tif" "batch").writes "out.tif" ≠
      final_file (create_landcover_mask batch_demo_env "hls.tif" "cop.tif"
        "esa.tif" "out.tif" "standard").writes "out.tif" := by
  decide

end Proteus
